import Mathlib

/-!
Verification of the Mileva API gateway (`src/server.js`).

The gateway forwards prompts to a local Ollama inference service and to the
Google Gemma cloud provider.  This development shallowly embeds the request
pipeline of `server.js`: the API-key gates mounted on `/api` and `/v1`, the
per-route handlers, the model-alias mapping, the chat-message flattening, and
the single-attempt upstream call with its timeout/error classification.

Network effects are abstracted into oracles describing the outcome of the one
outbound attempt a request can make; the embedding counts how many upstream
attempts a request performs, so "the upstream caller is never invoked" is a
provable statement.  Response serialization (the browser pretty-HTML layer
wrapped around `res.json`) changes only the wire format, never the status code
or the JSON object handed to `res.json`, and is not modelled.
-/

namespace Mileva

/-! ### JavaScript-style values

Request-body fields arrive from `express.json()` as arbitrary JSON values and
the handlers test them with JavaScript truthiness (`if (!input)` and friends).
`JVal` covers the value shapes the server reads from bodies; chat `messages`
arrays are represented structurally as lists of role/content pairs, the only
shape the server reads out of them. -/

/-- Chat message as read by `convertMessagesToPrompt` (`server.js:76-94`):
only the `role` and `content` properties are ever accessed. -/
structure ChatMessage where
  role : String
  content : String
deriving DecidableEq, Repr

/-- JSON-ish value of a request-body field, including `undefined` for an
absent field. -/
inductive JVal where
  | undef
  | jnull
  | str (s : String)
  | num (n : Int)
  | bool (b : Bool)
  | arr (messages : List ChatMessage)
deriving DecidableEq, Repr

/-- JavaScript truthiness of a `JVal`: `undefined`, `null`, `""`, `0` and
`false` are falsy; every other modelled value (including any array) is
truthy. -/
def jsTruthy : JVal → Bool
  | .undef => false
  | .jnull => false
  | .str s => s != ""
  | .num n => n != 0
  | .bool b => b
  | .arr _ => true

/-- Whether a value is a truthy (nonempty) string.  The generation handlers
interpolate the required field into a log line with `.substring(0, 100)`
before calling upstream, so only actual strings survive to the call; a truthy
non-string throws a TypeError there instead. -/
def isTruthyStr : JVal → Bool
  | .str s => s != ""
  | _ => false

/-- JavaScript `ToString` of a `JVal`, used where the server passes a body
field into a string position. Arrays of message objects stringify element-wise
to `[object Object]`. -/
def jsToString : JVal → String
  | .undef => "undefined"
  | .jnull => "null"
  | .str s => s
  | .num n => toString n
  | .bool b => if b then "true" else "false"
  | .arr ms => String.intercalate "," (ms.map (fun _ => "[object Object]"))

/-- Truthiness of a header value (`string` or `undefined`): the empty string
is falsy. -/
def jsTruthyOpt : Option String → Bool
  | none => false
  | some s => s != ""

/-- Prefix test on character lists, recursing on the needle so that an
exhausted needle decides true without inspecting the rest of the hay. -/
def charsPrefix : List Char → List Char → Bool
  | [], _ => true
  | a :: as, hay =>
    match hay with
    | [] => false
    | b :: bs => a == b && charsPrefix as bs

/-- Decide whether `needle` occurs as a contiguous run inside `hay`
(character-list form). -/
def charsInfix (needle : List Char) : List Char → Bool
  | [] => needle.isEmpty
  | c :: rest => charsPrefix needle (c :: rest) || charsInfix needle rest

/-- JavaScript `String.prototype.includes`. -/
def jsIncludes (s sub : String) : Bool :=
  charsInfix sub.data s.data

/-- Remove the leftmost occurrence of `pat` from a character list (identity
when `pat` does not occur). -/
def removeFirstChars (pat : List Char) : List Char → List Char
  | [] => []
  | c :: rest =>
    if charsPrefix pat (c :: rest) then (c :: rest).drop pat.length
    else c :: removeFirstChars pat rest

/-- JavaScript `String.prototype.replace(pat, '')` with a string pattern:
removes the first occurrence of `pat` only. -/
def removeFirst (s pat : String) : String :=
  ⟨removeFirstChars pat.data s.data⟩

/-! ### JSON response bodies -/

/-- JSON value used for response bodies handed to `res.json`. -/
inductive Json where
  | str (s : String)
  | num (n : Int)
  | bool (b : Bool)
  | jnull
  | arr (elems : List Json)
  | obj (fields : List (String × Json))
deriving Repr

/-- Field lookup on a JSON object. -/
def Json.getF : Json → String → Option Json
  | .obj fields, k => fields.lookup k
  | _, _ => none

/-- Index lookup on a JSON array. -/
def Json.getIdx : Json → Nat → Option Json
  | .arr elems, i => elems.get? i
  | _, _ => none

/-- JSON rendering of a request-body value, for response fields that echo the
request (the `model` field of the OpenAI envelopes). -/
def jvalToJson : JVal → Json
  | .undef => .jnull
  | .jnull => .jnull
  | .str s => .str s
  | .num n => .num n
  | .bool b => .bool b
  | .arr ms => .arr (ms.map (fun m => .obj [("role", .str m.role), ("content", .str m.content)]))

/-- HTTP response: status code plus the JSON body passed to `res.json`. -/
structure HttpResponse where
  status : Nat
  body : Json

/-! ### Pure translation functions of the server -/

/-- Static alias table of `mapModelName` (`server.js:57-71`). -/
def modelMap : List (String × String) :=
  [ ("gpt-3.5-turbo", "llama3.2:3b"),
    ("gpt-3.5-turbo-instruct", "llama3.2:3b"),
    ("gpt-4", "gemma3:4b"),
    ("gpt-4-turbo", "gemma3:4b"),
    ("gpt-4o", "gemma3:4b"),
    ("gpt-4o-mini", "llama3.2:1b"),
    ("text-davinci-003", "llama3.2:3b"),
    ("text-davinci-002", "llama3.2:1b"),
    ("code-davinci-002", "phi3:mini"),
    ("llama3.2:1b", "llama3.2:1b"),
    ("llama3.2:3b", "llama3.2:3b"),
    ("gemma3:4b", "gemma3:4b"),
    ("phi3:mini", "phi3:mini") ]

/-- The model-alias mapper (`server.js:56-74`) restricted to own entries of
the table: lookup with the hardcoded fallback `llama3.2:3b`.  This is the
behavior of `modelMap[openaiModel] || 'llama3.2:3b'` for every alias that is
not a property name inherited from `Object.prototype`; the JavaScript-accurate
version including the prototype chain is `mapModelNameJS` below, and
`mapModelNameJS_eq_of_not_proto` connects the two. -/
def mapModelName (openaiModel : String) : String :=
  (modelMap.lookup openaiModel).getD "llama3.2:3b"

/-- Property names an object literal inherits from `Object.prototype`:
bracket access on `modelMap` returns a truthy non-string member for each of
these even though none is an own entry of the table. -/
def objectProtoKeys : List String :=
  ["constructor", "hasOwnProperty", "isPrototypeOf", "propertyIsEnumerable",
   "toLocaleString", "toString", "valueOf", "__defineGetter__",
   "__defineSetter__", "__lookupGetter__", "__lookupSetter__", "__proto__"]

/-- Result of the JavaScript expression `modelMap[openaiModel] || 'llama3.2:3b'`:
either a string (an own table entry, or the default), or a member inherited
from `Object.prototype` (a function — or, for `__proto__`, the prototype
object itself) — truthy, so it bypasses the `||` default, and not a model
identifier string at all. -/
inductive ModelLookup where
  | str (s : String)
  | protoMember (name : String)
deriving DecidableEq, Repr

/-- JavaScript-accurate `mapModelName` (`server.js:56-74`): bracket access on
the object literal consults the prototype chain before yielding `undefined`,
so a name inherited from `Object.prototype` returns that truthy member and
the `|| 'llama3.2:3b'` fallback never fires; own entries map to their value,
and every other string falls back to the default. -/
def mapModelNameJS (openaiModel : String) : ModelLookup :=
  match modelMap.lookup openaiModel with
  | some v => .str v
  | none =>
    if openaiModel ∈ objectProtoKeys then .protoMember openaiModel
    else .str "llama3.2:3b"

/-- Per-message rendering of the chat-to-prompt flattening: the three
recognized roles get their tags, any other role contributes nothing
(`server.js:82-90`). -/
def renderMessage (m : ChatMessage) : String :=
  if m.role = "system" then "System: " ++ m.content ++ "\n\n"
  else if m.role = "user" then "Human: " ++ m.content ++ "\n\n"
  else if m.role = "assistant" then "Assistant: " ++ m.content ++ "\n\n"
  else ""

/-- Chat-message flattening (`server.js:76-94`): a non-array value yields
`""`; an array is rendered in order and terminated by the open
`"Assistant: "` cue. -/
def convertMessagesToPrompt : JVal → String
  | .arr ms => ms.foldl (fun acc m => acc ++ renderMessage m) "" ++ "Assistant: "
  | _ => ""

/-- Heuristic token count `Math.ceil(length / 4)` used by the usage
counters. -/
def jsCeilDiv4 (n : Nat) : Nat := (n + 3) / 4

/-- Role tag prefixed to a recognized message in the flattened transcript. -/
def roleTag : String → String
  | "system" => "System: "
  | "user" => "Human: "
  | "assistant" => "Assistant: "
  | _ => ""

/-- Prepend a character to the first segment of a segment list. -/
def consHead (c : Char) : List (List Char) → List (List Char)
  | [] => [[c]]
  | s :: ss => (c :: s) :: ss

/-- Split a character list on (leftmost, non-overlapping) occurrences of the
two-newline separator used between transcript entries. -/
def splitSegs : List Char → List (List Char)
  | [] => [[]]
  | [c] => [[c]]
  | c :: d :: rest =>
    if c = '\n' ∧ d = '\n' then [] :: splitSegs rest
    else consHead c (splitSegs (d :: rest))

/-- Modelled from the spec: the source has no transcript parser; the spec's
idempotence property re-parses the transcript "back into the same role
sequence".  A segment starting with a role tag parses back to that role and
the remaining text; anything else is not a message. -/
def parseSeg (s : List Char) : Option ChatMessage :=
  if charsPrefix ("System: ".data) s then some ⟨"system", ⟨s.drop 8⟩⟩
  else if charsPrefix ("Human: ".data) s then some ⟨"user", ⟨s.drop 7⟩⟩
  else if charsPrefix ("Assistant: ".data) s then some ⟨"assistant", ⟨s.drop 11⟩⟩
  else none

/-- Modelled from the spec: re-parse a flattened transcript into its role
sequence — split on the blank-line separator, drop the trailing open
`Assistant: ` cue, and read each tagged segment back as a message. -/
def parseTranscript (t : String) : List ChatMessage :=
  ((splitSegs t.data).dropLast).filterMap parseSeg

/-- A message the transcript encoding can represent unambiguously: a
recognized role, and a content that does not contain a newline (so the
rendered entry cannot collide with the blank-line separator). -/
def wfMessage (m : ChatMessage) : Prop :=
  (m.role = "system" ∨ m.role = "user" ∨ m.role = "assistant") ∧ '\n' ∉ m.content.data

instance (m : ChatMessage) : Decidable (wfMessage m) := by
  unfold wfMessage
  infer_instance

/-! ### Upstream caller -/

/-- Base URL of the local inference service (`server.js:11`). -/
def OLLAMA_API_URL : String := "http://localhost:11434"

/-- Outcome of the single `fetch` attempt inside `callOllamaAPI`:
the attempt succeeds with generated text, returns a non-2xx status with an
error body, is aborted because the route's timeout budget elapsed, or fails
at the transport level. -/
inductive OllamaOutcome where
  | success (text : String)
  | httpError (status : Nat) (body : String)
  | abort
  | transportError (msg : String)
deriving DecidableEq, Repr

/-- Result mapping of `callOllamaAPI` (`server.js:424-473`): a non-ok
response becomes an `Ollama API error (status): body` error, an abort becomes
the fixed timeout message, transport errors are rethrown unchanged, and a
success returns `data.response`.  Exactly one attempt is made; the outcome of
that one attempt is the argument. -/
def callOllamaAPI : OllamaOutcome → Except String String
  | .success t => .ok t
  | .httpError status body => .error ("Ollama API error (" ++ toString status ++ "): " ++ body)
  | .abort => .error "Request timeout - ollama took too long to respond"
  | .transportError msg => .error msg

/-- Input routed to the Google GenAI SDK by `callGoogleGemmaAPI`
(`server.js:652-669`): a bare prompt, the provider-native `contents`, or the
whole request body as a fallback. -/
inductive GemmaContents where
  | fromPrompt (p : JVal)
  | fromContents (c : JVal)
  | fromBody (input model messages prompt stream contents : JVal)
deriving Repr

/-- Outcome of the `fetch` of `GET /api/tags` in the ollama-status route
(`server.js:610-634`). -/
inductive TagsOutcome where
  | ok (data : Json)
  | httpStatus (status : Nat)
  | transport (msg : String)

/-- Environment of one request's upstream interactions.  `ollama` gives the
outcome of the single generate attempt as a function of the model identifier
and prompt actually sent (a timeout budget elapsing surfaces as `.abort`);
`tags` is the outcome of the status probe; `gemma` is the concatenated text
of the provider's stream (or its error) as a function of the contents sent. -/
structure Oracles where
  ollama : String → String → OllamaOutcome
  tags : TagsOutcome
  gemma : GemmaContents → Except String String

/-! ### Requests, configuration, routes -/

/-- Process configuration read once at startup (`server.js:9-10`): the shared
secret `API_KEY` and the provider credential `GEMINI_API_KEY`, each possibly
unset. -/
structure Config where
  apiKey : Option String
  geminiKey : Option String

/-- Ambient clock values of one request: `Date.now()` while the response is
built, the measured processing time, and the ISO timestamp string. -/
structure Env where
  now : Nat
  elapsedMs : Nat
  isoTime : String

/-- Request body fields the server reads; absent fields are `undefined`. -/
structure Body where
  input : JVal := .undef
  model : JVal := .undef
  messages : JVal := .undef
  prompt : JVal := .undef
  stream : JVal := .undef
  contents : JVal := .undef
deriving Repr

/-- Declared routes of the app, plus catch-alls for unmatched paths under the
two gated mounts (which still pass through the gate middleware before
Express's 404). -/
inductive Route where
  | root
  | health
  | apiLlama32_1b
  | apiLlama32_3b
  | apiGemma3_4b
  | apiPhi3Mini
  | apiTestOllama
  | apiTestComplex
  | apiOllamaStatus
  | apiGoogleGemma
  | apiOther
  | v1Models
  | v1ChatCompletions
  | v1Completions
  | v1Other
deriving DecidableEq, Repr

/-- Paths matched by the `/api` gate middleware (`server.js:176`). -/
def isApiPath : Route → Bool
  | .apiLlama32_1b | .apiLlama32_3b | .apiGemma3_4b | .apiPhi3Mini
  | .apiTestOllama | .apiTestComplex | .apiOllamaStatus | .apiGoogleGemma
  | .apiOther => true
  | _ => false

/-- Paths matched by the `/v1` gate middleware (`server.js:186`). -/
def isV1Path : Route → Bool
  | .v1Models | .v1ChatCompletions | .v1Completions | .v1Other => true
  | _ => false

/-- Inbound request: matched route, the two auth-relevant headers, and the
parsed JSON body. -/
structure Request where
  route : Route
  xApiKey : Option String
  authorization : Option String
  body : Body

/-! ### Auth gates -/

/-- The `/api` gate (`server.js:176-184`): strict inequality between the
`x-api-key` header and the configured secret (both possibly `undefined`)
yields 403, otherwise the request passes through. -/
def apiGate (apiKey : Option String) (xApiKey : Option String) : Option HttpResponse :=
  if xApiKey ≠ apiKey then
    some ⟨403, .obj [("error", .str "Forbidden - Invalid API Key")]⟩
  else none

/-- The key the `/v1` gate compares (`server.js:188`):
`x-api-key || authorization?.replace('Bearer ', '')`. -/
def v1SuppliedKey (xApiKey authorization : Option String) : Option String :=
  if jsTruthyOpt xApiKey then xApiKey
  else authorization.map (fun a => removeFirst a "Bearer ")

/-- The `/v1` gate (`server.js:186-200`): inequality with the configured
secret yields the structured 401 envelope. -/
def v1Gate (apiKey xApiKey authorization : Option String) : Option HttpResponse :=
  if v1SuppliedKey xApiKey authorization ≠ apiKey then
    some ⟨401, .obj [("error", .obj
      [("message", .str "Invalid API key provided"),
       ("type", .str "invalid_request_error"),
       ("code", .str "invalid_api_key")])]⟩
  else none

/-! ### Route handlers

Each handler returns its response together with the number of
`callOllamaAPI` attempts it performed. -/

/-- Native generation route handler (`server.js:475-494` and the three
analogous routes): truthiness check on `input`, one upstream attempt, and
classification of a failure by whether its message contains `timeout`.
This definition is faithful for falsy and for string inputs, the only shapes
the theorems exercise it at: a truthy non-string input throws a TypeError at
`input.substring(0, 100)` (`server.js:479`) before the try block, escaping
the handler with zero attempts and no `res.json` response — a disposition
(Express 4 leaves the request unanswered, Express 5 forwards to the error
middleware) outside this embedding's response model. -/
def handleNative (model : String) (timeoutMs : Nat) (oracle : String → String → OllamaOutcome)
    (input : JVal) : HttpResponse × Nat :=
  if !jsTruthy input then
    (⟨400, .obj [("error", .str "Missing input")]⟩, 0)
  else
    match callOllamaAPI (oracle model (jsToString input)) with
    | .ok result => (⟨200, .obj [("result", .str result)]⟩, 1)
    | .error m =>
      if jsIncludes m "timeout" then (⟨408, .obj [("error", .str m)]⟩, 1)
      else (⟨500, .obj [("error", .str m)]⟩, 1)

/-- Missing-required-parameters envelope of the `/v1` routes. -/
def missingParamsError (what : String) : Json :=
  .obj [("error", .obj
    [("message", .str ("Missing required parameters: " ++ what)),
     ("type", .str "invalid_request_error"),
     ("code", .str "missing_required_parameter")])]

/-- Rejection envelope for `stream: true` on the `/v1` routes. -/
def streamError : Json :=
  .obj [("error", .obj
    [("message", .str "Streaming is not supported yet"),
     ("type", .str "invalid_request_error"),
     ("code", .str "unsupported_parameter")])]

/-- Timeout envelope of the `/v1` routes. -/
def v1TimeoutError : Json :=
  .obj [("error", .obj
    [("message", .str "Request timed out - model took too long to respond"),
     ("type", .str "timeout_error"),
     ("code", .str "timeout")])]

/-- Generic model-error envelope of the `/v1` routes, embedding the raw
message. -/
def v1ModelError (m : String) : Json :=
  .obj [("error", .obj
    [("message", .str m),
     ("type", .str "internal_error"),
     ("code", .str "model_error")])]

/-- Usage counters synthesized from the prompt and the result
(`server.js:301-305`). -/
def usageJson (promptLen resultLen : Nat) : Json :=
  .obj [("prompt_tokens", .num (jsCeilDiv4 promptLen)),
        ("completion_tokens", .num (jsCeilDiv4 resultLen)),
        ("total_tokens", .num (jsCeilDiv4 (promptLen + resultLen)))]

/-- Success envelope of `POST /v1/chat/completions` (`server.js:286-312`). -/
def chatEnvelope (model : JVal) (ollamaModel prompt result : String) (env : Env) : Json :=
  .obj [("id", .str ("chatcmpl-" ++ toString env.now)),
        ("object", .str "chat.completion"),
        ("created", .num (env.now / 1000)),
        ("model", jvalToJson model),
        ("choices", .arr [.obj
          [("index", .num 0),
           ("message", .obj [("role", .str "assistant"), ("content", .str result)]),
           ("finish_reason", .str "stop")]]),
        ("usage", usageJson prompt.length result.length),
        ("system_fingerprint", .str ("mileva-" ++ ollamaModel)),
        ("local_info", .obj
          [("ollama_model", .str ollamaModel),
           ("processing_time_ms", .num env.elapsedMs),
           ("server", .str "mileva-local")])]

/-- Success envelope of `POST /v1/completions` (`server.js:373-396`). -/
def completionEnvelope (model : JVal) (ollamaModel prompt result : String) (env : Env) : Json :=
  .obj [("id", .str ("cmpl-" ++ toString env.now)),
        ("object", .str "text_completion"),
        ("created", .num (env.now / 1000)),
        ("model", jvalToJson model),
        ("choices", .arr [.obj
          [("text", .str result),
           ("index", .num 0),
           ("logprobs", .jnull),
           ("finish_reason", .str "stop")]]),
        ("usage", usageJson prompt.length result.length),
        ("local_info", .obj
          [("ollama_model", .str ollamaModel),
           ("processing_time_ms", .num env.elapsedMs),
           ("server", .str "mileva-local")])]

/-- `POST /v1/chat/completions` (`server.js:252-338`): required-parameter
check, stream rejection, one upstream attempt with the 180000 ms budget, and
error classification by message text. -/
def handleChatCompletions (os : Oracles) (env : Env) (b : Body) : HttpResponse × Nat :=
  if !jsTruthy b.model || !jsTruthy b.messages then
    (⟨400, missingParamsError "model and messages"⟩, 0)
  else if jsTruthy b.stream then
    (⟨400, streamError⟩, 0)
  else
    match callOllamaAPI (os.ollama (mapModelName (jsToString b.model)) (convertMessagesToPrompt b.messages)) with
    | .ok result =>
      (⟨200, chatEnvelope b.model (mapModelName (jsToString b.model)) (convertMessagesToPrompt b.messages) result env⟩, 1)
    | .error m =>
      if jsIncludes m "timeout" then (⟨408, v1TimeoutError⟩, 1)
      else (⟨500, v1ModelError m⟩, 1)

/-- `POST /v1/completions` (`server.js:340-422`): required-parameter check,
stream rejection, then the pre-call log line `prompt.substring(0, 100)`
(`server.js:367`, inside the try) — a truthy non-string prompt throws a
TypeError there, which the catch classifies like any other error (its message
does not mention `timeout`), yielding 500 with zero upstream attempts; a
string prompt proceeds to the single attempt. -/
def handleCompletions (os : Oracles) (env : Env) (b : Body) : HttpResponse × Nat :=
  if !jsTruthy b.model || !jsTruthy b.prompt then
    (⟨400, missingParamsError "model and prompt"⟩, 0)
  else if jsTruthy b.stream then
    (⟨400, streamError⟩, 0)
  else
    match b.prompt with
    | .str p =>
      match callOllamaAPI (os.ollama (mapModelName (jsToString b.model)) p) with
      | .ok result =>
        (⟨200, completionEnvelope b.model (mapModelName (jsToString b.model)) p result env⟩, 1)
      | .error m =>
        if jsIncludes m "timeout" then (⟨408, v1TimeoutError⟩, 1)
        else (⟨500, v1ModelError m⟩, 1)
    | _ =>
      (⟨500, v1ModelError "prompt.substring is not a function"⟩, 0)

/-- `GET /v1/models` (`server.js:202-250`): a static model entry. -/
def v1ModelEntry (id desc : String) : Json :=
  .obj [("id", .str id), ("object", .str "model"), ("created", .num 1686935002),
        ("owned_by", .str "mileva-local"), ("permission", .arr []),
        ("root", .str id), ("parent", .jnull), ("description", .str desc)]

/-- Static body of `GET /v1/models`. -/
def v1ModelsBody : Json :=
  .obj [("object", .str "list"),
        ("data", .arr
          [v1ModelEntry "gpt-3.5-turbo" "Powered by Llama 3.2 3B locally",
           v1ModelEntry "gpt-4" "Powered by Gemma 3 4B locally",
           v1ModelEntry "gpt-4o-mini" "Powered by Llama 3.2 1B locally",
           v1ModelEntry "text-davinci-003" "Powered by Llama 3.2 3B locally"])]

/-- `GET /api/test-ollama` (`server.js:559-582`): fixed prompt, 30000 ms
budget, every error (timeouts included) reported as 500. -/
def handleTestOllama (os : Oracles) (env : Env) : HttpResponse × Nat :=
  match callOllamaAPI (os.ollama "llama3.2:1b" "Say hello") with
  | .ok result =>
    (⟨200, .obj [("success", .bool true), ("result", .str result),
                 ("duration_ms", .num env.elapsedMs),
                 ("message", .str "Ollama API is working correctly"),
                 ("method", .str "REST API")]⟩, 1)
  | .error m =>
    (⟨500, .obj [("error", .str m), ("method", .str "REST API"),
                 ("api_url", .str OLLAMA_API_URL)]⟩, 1)

/-- `GET /api/test-complex` (`server.js:584-608`). -/
def handleTestComplex (os : Oracles) (env : Env) : HttpResponse × Nat :=
  match callOllamaAPI (os.ollama "llama3.2:1b" "Write a simple function in Python that adds two numbers") with
  | .ok result =>
    (⟨200, .obj [("success", .bool true), ("result", .str result),
                 ("duration_ms", .num env.elapsedMs),
                 ("message", .str "Complex prompt test completed"),
                 ("method", .str "REST API")]⟩, 1)
  | .error m =>
    (⟨500, .obj [("error", .str m), ("method", .str "REST API"),
                 ("api_url", .str OLLAMA_API_URL),
                 ("suggestion", .str "Try restarting ollama service: ollama serve")]⟩, 1)

/-- Truthiness of a JSON value, for the `data.models || []` fallback. -/
def jsonTruthy : Json → Bool
  | .str s => !s.isEmpty
  | .num n => n != 0
  | .bool b => b
  | .jnull => false
  | .arr _ => true
  | .obj _ => true

/-- `GET /api/ollama-status` (`server.js:610-634`): probes the tags endpoint,
no generation involved. -/
def handleOllamaStatus (os : Oracles) : HttpResponse :=
  match os.tags with
  | .ok data =>
    let models := match data.getF "models" with
      | some j => if jsonTruthy j then j else .arr []
      | none => .arr []
    ⟨200, .obj [("status", .str "running"), ("api_url", .str OLLAMA_API_URL),
                ("models", models)]⟩
  | .httpStatus st =>
    ⟨500, .obj [("status", .str "error"),
                ("error", .str ("Ollama service not responding (" ++ toString st ++ ")")),
                ("api_url", .str OLLAMA_API_URL)]⟩
  | .transport m =>
    ⟨500, .obj [("status", .str "error"), ("error", .str m),
                ("api_url", .str OLLAMA_API_URL)]⟩

/-- Contents selection of `callGoogleGemmaAPI` (`server.js:652-669`). -/
def selectGemmaContents (b : Body) : GemmaContents :=
  if jsTruthy b.prompt then .fromPrompt b.prompt
  else if jsTruthy b.contents then .fromContents b.contents
  else .fromBody b.input b.model b.messages b.prompt b.stream b.contents

/-- `callGoogleGemmaAPI` (`server.js:636-693`): throws before any provider
call when the credential is falsy; otherwise performs exactly one provider
call.  The second component counts provider calls. -/
def callGoogleGemmaAPI (geminiKey : Option String) (gemma : GemmaContents → Except String String)
    (b : Body) : Except String String × Nat :=
  if !jsTruthyOpt geminiKey then
    (.error "GEMINI_API_KEY environment variable not set", 0)
  else
    (gemma (selectGemmaContents b), 1)

/-- `POST /api/google-gemma` (`server.js:695-717`): classifies an error by
whether its message mentions `GEMINI_API_KEY`, replacing it with the
remediation hint. -/
def handleGoogleGemma (geminiKey : Option String) (gemma : GemmaContents → Except String String)
    (b : Body) : HttpResponse × Nat :=
  match callGoogleGemmaAPI geminiKey gemma b with
  | (.ok result, n) =>
    (⟨200, .obj [("result", .str result), ("model", .str "gemma-3n-e4b-it"),
                 ("provider", .str "google")]⟩, n)
  | (.error m, n) =>
    if jsIncludes m "GEMINI_API_KEY" then
      (⟨500, .obj [("error", .str "Google API key not configured. Set GEMINI_API_KEY environment variable.")]⟩, n)
    else
      (⟨500, .obj [("error", .str m)]⟩, n)

/-- Express fallthrough for an unmatched path (its HTML `Cannot .. ..` body
is abstracted to a marker string). -/
def notFoundResp : HttpResponse := ⟨404, .str "Cannot match route"⟩

/-- Abbreviated static body of `GET /` (`server.js:96-170`); the remaining
static documentation fields are not claim-relevant and are omitted. -/
def rootDoc : Json :=
  .obj [("message", .str "Hello, welcome to Mileva API"), ("version", .str "1.0.0")]

/-- Dispatch of the routes mounted under `/api`, after the gate has passed.
Results are `(response, ollama attempts, provider attempts)`. -/
def apiDispatch (cfg : Config) (os : Oracles) (env : Env) : Route → Body → HttpResponse × Nat × Nat
  | .apiLlama32_1b, b => let (r, n) := handleNative "llama3.2:1b" 180000 os.ollama b.input; (r, n, 0)
  | .apiLlama32_3b, b => let (r, n) := handleNative "llama3.2:3b" 120000 os.ollama b.input; (r, n, 0)
  | .apiGemma3_4b, b => let (r, n) := handleNative "gemma3:4b" 150000 os.ollama b.input; (r, n, 0)
  | .apiPhi3Mini, b => let (r, n) := handleNative "phi3:mini" 120000 os.ollama b.input; (r, n, 0)
  | .apiTestOllama, _ => let (r, n) := handleTestOllama os env; (r, n, 0)
  | .apiTestComplex, _ => let (r, n) := handleTestComplex os env; (r, n, 0)
  | .apiOllamaStatus, _ => (handleOllamaStatus os, 0, 0)
  | .apiGoogleGemma, b => let (r, g) := handleGoogleGemma cfg.geminiKey os.gemma b; (r, 0, g)
  | _, _ => (notFoundResp, 0, 0)

/-- Dispatch of the routes mounted under `/v1`, after the gate has passed. -/
def v1Dispatch (os : Oracles) (env : Env) : Route → Body → HttpResponse × Nat × Nat
  | .v1Models, _ => (⟨200, v1ModelsBody⟩, 0, 0)
  | .v1ChatCompletions, b => let (r, n) := handleChatCompletions os env b; (r, n, 0)
  | .v1Completions, b => let (r, n) := handleCompletions os env b; (r, n, 0)
  | _, _ => (notFoundResp, 0, 0)

/-- The whole request pipeline: gates run before any handler of their mount;
the public routes bypass both gates.  The result is the response together
with the number of `callOllamaAPI` attempts and of provider-API attempts the
request performed. -/
def handleRequest (cfg : Config) (os : Oracles) (env : Env) (req : Request) :
    HttpResponse × Nat × Nat :=
  if isApiPath req.route then
    match apiGate cfg.apiKey req.xApiKey with
    | some resp => (resp, 0, 0)
    | none => apiDispatch cfg os env req.route req.body
  else if isV1Path req.route then
    match v1Gate cfg.apiKey req.xApiKey req.authorization with
    | some resp => (resp, 0, 0)
    | none => v1Dispatch os env req.route req.body
  else
    match req.route with
    | .root => (⟨200, rootDoc⟩, 0, 0)
    | .health => (⟨200, .obj [("status", .str "ok"), ("timestamp", .str env.isoTime)]⟩, 0, 0)
    | _ => (notFoundResp, 0, 0)

/-- The four native generation POST routes. -/
def isNativeGenRoute : Route → Bool
  | .apiLlama32_1b | .apiLlama32_3b | .apiGemma3_4b | .apiPhi3Mini => true
  | _ => false

/-- Stub oracle environment whose upstream always succeeds with `t`. -/
def stubOracles (t : String) : Oracles :=
  ⟨fun _ _ => .success t, .ok (.arr []), fun _ => .ok t⟩

/-- Fixed clock for concrete evaluations. -/
def env0 : Env := ⟨0, 0, "1970-01-01T00:00:00.000Z"⟩

/-- The six client-facing generation POST routes (native and
OpenAI-compatible); the diagnostic GET routes are not generation
endpoints. -/
def isGenRoute : Route → Bool
  | .apiLlama32_1b | .apiLlama32_3b | .apiGemma3_4b | .apiPhi3Mini
  | .v1ChatCompletions | .v1Completions => true
  | _ => false

/-- Whether the request passes the gate of its mount. -/
def gateOk (cfg : Config) (req : Request) : Bool :=
  if isApiPath req.route then req.xApiKey == cfg.apiKey
  else v1SuppliedKey req.xApiKey req.authorization == cfg.apiKey

/-- Whether a generation route's request reaches the upstream call: the
handler's truthiness validation passes, the stream flag is falsy, and the
field interpolated into the pre-call log line (`input` on the native routes,
`prompt` on `/v1/completions`) is an actual string — a truthy non-string
throws a TypeError at `.substring(0, 100)` before any attempt.  The chat
route interpolates only the always-string flattened prompt, so any truthy
`model` and `messages` reach the call. -/
def validGenBody : Route → Body → Bool
  | .apiLlama32_1b, b | .apiLlama32_3b, b | .apiGemma3_4b, b | .apiPhi3Mini, b =>
    isTruthyStr b.input
  | .v1ChatCompletions, b => jsTruthy b.model && jsTruthy b.messages && !jsTruthy b.stream
  | .v1Completions, b => jsTruthy b.model && isTruthyStr b.prompt && !jsTruthy b.stream
  | _, _ => false

/-- Required-parameter check of the two `/v1` generation routes, which the
handlers perform before looking at the stream flag. -/
def requiredParamsOk : Route → Body → Bool
  | .v1ChatCompletions, b => jsTruthy b.model && jsTruthy b.messages
  | .v1Completions, b => jsTruthy b.model && jsTruthy b.prompt
  | _, _ => false

/-- Fixed internal model of each native generation route. -/
def nativeModelOf : Route → String
  | .apiLlama32_1b => "llama3.2:1b"
  | .apiLlama32_3b => "llama3.2:3b"
  | .apiGemma3_4b => "gemma3:4b"
  | .apiPhi3Mini => "phi3:mini"
  | _ => ""

/-- Model identifier a generation route sends upstream. -/
def genModel : Route → Body → String
  | .apiLlama32_1b, _ => "llama3.2:1b"
  | .apiLlama32_3b, _ => "llama3.2:3b"
  | .apiGemma3_4b, _ => "gemma3:4b"
  | .apiPhi3Mini, _ => "phi3:mini"
  | .v1ChatCompletions, b => mapModelName (jsToString b.model)
  | .v1Completions, b => mapModelName (jsToString b.model)
  | _, _ => ""

/-- Prompt a generation route sends upstream. -/
def genPrompt : Route → Body → String
  | .apiLlama32_1b, b | .apiLlama32_3b, b | .apiGemma3_4b, b | .apiPhi3Mini, b =>
    jsToString b.input
  | .v1ChatCompletions, b => convertMessagesToPrompt b.messages
  | .v1Completions, b => jsToString b.prompt
  | _, _ => ""

/-- Where a generation route embeds a raw upstream error message: the flat
`error` field on native routes, `error.message` on the `/v1` routes. -/
def errMessageOf (r : Route) (j : Json) : Option Json :=
  if isNativeGenRoute r then j.getF "error"
  else (j.getF "error").bind (fun e => e.getF "message")

/-- Accessor `choices[0].message.content` of a chat envelope. -/
def chatContent (j : Json) : Option Json :=
  (((j.getF "choices").bind (fun c => c.getIdx 0)).bind (fun c => c.getF "message")).bind
    (fun m => m.getF "content")

/-- Oracle environment whose upstream generate attempt fails with an
upstream HTTP 502 whose body text happens to mention the word timeout. -/
def timeoutWordOracles : Oracles :=
  ⟨fun _ _ => .httpError 502 "upstream read timeout", .ok (.arr []), fun _ => .ok ""⟩

/-- Oracle environment whose upstream generate attempt is aborted by the
route's timeout budget. -/
def abortOracles : Oracles :=
  ⟨fun _ _ => .abort, .ok (.arr []), fun _ => .ok ""⟩

/-! ## Claims -/

/-- C5 counterexample: `toString` is not an own entry of the table, yet the
JavaScript lookup returns the member inherited from `Object.prototype`
(truthy), so the `||` default never fires and the result is not the default
model identifier — refuting the claim that every string absent from the
table maps to `llama3.2:3b`. -/
theorem mapModelName_prototype_counterexample :
    modelMap.lookup "toString" = none ∧
    mapModelNameJS "toString" = .protoMember "toString" ∧
    mapModelNameJS "toString" ≠ .str "llama3.2:3b" :=
  ⟨rfl, rfl, by decide⟩

/-- Helper: away from the inherited `Object.prototype` names, the
JavaScript-accurate mapper agrees with the plain table-lookup mapper the
handler embeddings use. -/
theorem mapModelNameJS_eq_of_not_proto (s : String) (h : s ∉ objectProtoKeys) :
    mapModelNameJS s = .str (mapModelName s) := by
  unfold mapModelNameJS mapModelName
  cases hl : modelMap.lookup s with
  | some v => simp [hl]
  | none => simp [hl, h]

/-- C5 amended: `mapModelName` never throws; each of the 13 table aliases
maps to its fixed internal identifier, and every string that is neither a
table entry nor a property name inherited from `Object.prototype` maps to
the default `llama3.2:3b`; a string naming an inherited `Object.prototype`
member (`toString`, `constructor`, `__proto__`, …) instead yields that
truthy member — never an identifier string — bypassing the `||` default. -/
theorem mapModelName_table_default_and_proto :
    (mapModelNameJS "gpt-3.5-turbo" = .str "llama3.2:3b" ∧
     mapModelNameJS "gpt-3.5-turbo-instruct" = .str "llama3.2:3b" ∧
     mapModelNameJS "gpt-4" = .str "gemma3:4b" ∧
     mapModelNameJS "gpt-4-turbo" = .str "gemma3:4b" ∧
     mapModelNameJS "gpt-4o" = .str "gemma3:4b" ∧
     mapModelNameJS "gpt-4o-mini" = .str "llama3.2:1b" ∧
     mapModelNameJS "text-davinci-003" = .str "llama3.2:3b" ∧
     mapModelNameJS "text-davinci-002" = .str "llama3.2:1b" ∧
     mapModelNameJS "code-davinci-002" = .str "phi3:mini" ∧
     mapModelNameJS "llama3.2:1b" = .str "llama3.2:1b" ∧
     mapModelNameJS "llama3.2:3b" = .str "llama3.2:3b" ∧
     mapModelNameJS "gemma3:4b" = .str "gemma3:4b" ∧
     mapModelNameJS "phi3:mini" = .str "phi3:mini") ∧
    modelMap.length = 13 ∧
    (∀ s : String, modelMap.lookup s = none → s ∉ objectProtoKeys →
      mapModelNameJS s = .str "llama3.2:3b") ∧
    (∀ s : String, modelMap.lookup s = none → s ∈ objectProtoKeys →
      mapModelNameJS s = .protoMember s ∧ ∀ t : String, mapModelNameJS s ≠ .str t) := by
  refine ⟨⟨rfl, rfl, rfl, rfl, rfl, rfl, rfl, rfl, rfl, rfl, rfl, rfl, rfl⟩, rfl, ?_, ?_⟩
  · intro s h hnp
    simp [mapModelNameJS, h, hnp]
  · intro s h hp
    have he : mapModelNameJS s = .protoMember s := by simp [mapModelNameJS, h, hp]
    exact ⟨he, fun t hne => by rw [he] at hne; cases hne⟩

/-- Witness for amended C5 at a default-case alias and a prototype name. -/
theorem mapModelName_table_default_and_proto_witness :
    mapModelNameJS "mistral:7b" = .str "llama3.2:3b" ∧
    mapModelNameJS "toString" = .protoMember "toString" :=
  ⟨mapModelName_table_default_and_proto.2.2.1 "mistral:7b" rfl (by decide),
   (mapModelName_table_default_and_proto.2.2.2 "toString" rfl (by decide)).1⟩

/-- C9: when the shared secret is unset, a request to a gated `/api` route
that omits the `x-api-key` header passes the auth gate (both sides of the
inequality are `undefined`) and reaches the route handler: the pipeline
result is exactly the post-gate dispatch. -/
theorem unset_secret_gate_open (cfg : Config) (os : Oracles) (env : Env) (req : Request)
    (hkey : cfg.apiKey = none) (hhdr : req.xApiKey = none) (hapi : isApiPath req.route = true) :
    apiGate cfg.apiKey req.xApiKey = none ∧
    handleRequest cfg os env req = apiDispatch cfg os env req.route req.body := by
  have hg : apiGate cfg.apiKey req.xApiKey = none := by
    simp [apiGate, hkey, hhdr]
  exact ⟨hg, by simp [handleRequest, hapi, hg]⟩

/-- Witness for C9: with no secret configured and no key supplied, the
llama32-1b handler runs and serves the stubbed generation. -/
theorem unset_secret_gate_open_witness :
    apiGate (none : Option String) none = none ∧
    handleRequest ⟨none, none⟩ (stubOracles "hello") env0
        ⟨.apiLlama32_1b, none, none, {input := .str "hi"}⟩ =
      apiDispatch ⟨none, none⟩ (stubOracles "hello") env0 .apiLlama32_1b {input := .str "hi"} :=
  unset_secret_gate_open ⟨none, none⟩ (stubOracles "hello") env0
    ⟨.apiLlama32_1b, none, none, {input := .str "hi"}⟩ rfl rfl rfl

/-- C8: a `POST /api/google-gemma` that passes the gate while `GEMINI_API_KEY`
is not configured receives HTTP 500 with the configuration-error message
(which contains the remediation hint), and no provider call is attempted. -/
theorem gemma_missing_credential (cfg : Config) (os : Oracles) (env : Env) (req : Request)
    (hroute : req.route = .apiGoogleGemma) (hauth : req.xApiKey = cfg.apiKey)
    (hkey : cfg.geminiKey = none) :
    handleRequest cfg os env req =
      (⟨500, .obj [("error", .str "Google API key not configured. Set GEMINI_API_KEY environment variable.")]⟩, 0, 0) ∧
    jsIncludes "Google API key not configured. Set GEMINI_API_KEY environment variable."
      "Set GEMINI_API_KEY environment variable" = true := by
  obtain ⟨r, x, a, b⟩ := req
  obtain ⟨ak, gk⟩ := cfg
  simp only at hroute hauth hkey
  subst hroute hauth hkey
  refine ⟨?_, by decide⟩
  have hinc : jsIncludes "GEMINI_API_KEY environment variable not set" "GEMINI_API_KEY" = true := by
    decide
  simp [handleRequest, isApiPath, apiGate, apiDispatch, handleGoogleGemma,
        callGoogleGemmaAPI, jsTruthyOpt, hinc]

/-- Witness for C8 at a concrete request with matching secret and no
provider credential. -/
theorem gemma_missing_credential_witness :
    handleRequest ⟨some "k", none⟩ (stubOracles "hello") env0
        ⟨.apiGoogleGemma, some "k", none, {input := .str "hi"}⟩ =
      (⟨500, .obj [("error", .str "Google API key not configured. Set GEMINI_API_KEY environment variable.")]⟩, 0, 0) ∧
    jsIncludes "Google API key not configured. Set GEMINI_API_KEY environment variable."
      "Set GEMINI_API_KEY environment variable" = true :=
  gemma_missing_credential ⟨some "k", none⟩ (stubOracles "hello") env0
    ⟨.apiGoogleGemma, some "k", none, {input := .str "hi"}⟩ rfl rfl rfl

/-- C2: a POST to a native generation route whose body lacks `input` is
answered 400 `Missing input` with no upstream attempt; a POST to
`/v1/chat/completions` lacking `model` or `messages` (resp. `/v1/completions`
lacking `model` or `prompt`) is answered 400 with the validation envelope,
again with no upstream attempt. -/
theorem missing_field_rejected (cfg : Config) (os : Oracles) (env : Env) (req : Request) :
    (isNativeGenRoute req.route = true → req.xApiKey = cfg.apiKey →
      req.body.input = .undef →
      handleRequest cfg os env req = (⟨400, .obj [("error", .str "Missing input")]⟩, 0, 0)) ∧
    (req.route = .v1ChatCompletions →
      v1SuppliedKey req.xApiKey req.authorization = cfg.apiKey →
      (req.body.model = .undef ∨ req.body.messages = .undef) →
      handleRequest cfg os env req = (⟨400, missingParamsError "model and messages"⟩, 0, 0)) ∧
    (req.route = .v1Completions →
      v1SuppliedKey req.xApiKey req.authorization = cfg.apiKey →
      (req.body.model = .undef ∨ req.body.prompt = .undef) →
      handleRequest cfg os env req = (⟨400, missingParamsError "model and prompt"⟩, 0, 0)) := by
  obtain ⟨r, x, a, b⟩ := req
  refine ⟨?_, ?_, ?_⟩
  · intro hr hk hin
    simp only at hr hk hin
    cases r <;>
      first
      | exact absurd hr (by decide)
      | simp [handleRequest, isApiPath, apiGate, hk, apiDispatch, handleNative, hin, jsTruthy]
  · intro hr hk hor
    simp only at hr hk hor
    subst hr
    have hg : v1Gate cfg.apiKey x a = none := by simp [v1Gate, hk]
    rcases hor with h | h <;>
      simp [handleRequest, isApiPath, isV1Path, hg, v1Dispatch, handleChatCompletions, h, jsTruthy]
  · intro hr hk hor
    simp only at hr hk hor
    subst hr
    have hg : v1Gate cfg.apiKey x a = none := by simp [v1Gate, hk]
    rcases hor with h | h <;>
      simp [handleRequest, isApiPath, isV1Path, hg, v1Dispatch, handleCompletions, h, jsTruthy]

/-- Witness for C2 at a concrete native request with an absent `input`
field. -/
theorem missing_field_rejected_witness :
    handleRequest ⟨some "k", none⟩ (stubOracles "hello") env0 ⟨.apiLlama32_1b, some "k", none, {}⟩ =
      (⟨400, .obj [("error", .str "Missing input")]⟩, 0, 0) :=
  (missing_field_rejected ⟨some "k", none⟩ (stubOracles "hello") env0
    ⟨.apiLlama32_1b, some "k", none, {}⟩).1 rfl rfl rfl

/-- C1: a request under `/api` whose `x-api-key` header differs from the
configured secret is answered 403 by the gate, and a request under `/v1`
whose effective key (`x-api-key`, or else the Authorization value with its
`Bearer ` prefix removed) differs from the secret is answered 401 — in both
cases with the gate's fixed body, before any route handler output can occur,
and with zero `callOllamaAPI` (and provider) attempts. -/
theorem bad_key_rejected_no_upstream (cfg : Config) (os : Oracles) (env : Env) (req : Request) :
    (isApiPath req.route = true → req.xApiKey ≠ cfg.apiKey →
      handleRequest cfg os env req =
        (⟨403, .obj [("error", .str "Forbidden - Invalid API Key")]⟩, 0, 0)) ∧
    (isV1Path req.route = true →
      v1SuppliedKey req.xApiKey req.authorization ≠ cfg.apiKey →
      handleRequest cfg os env req =
        (⟨401, .obj [("error", .obj
          [("message", .str "Invalid API key provided"),
           ("type", .str "invalid_request_error"),
           ("code", .str "invalid_api_key")])]⟩, 0, 0)) := by
  obtain ⟨r, x, a, b⟩ := req
  constructor
  · intro hapi hne
    simp only at hapi hne
    simp [handleRequest, hapi, apiGate, hne]
  · intro hv1 hne
    simp only at hv1 hne
    have hnapi : isApiPath r = false := by
      cases r <;> first | rfl | exact absurd hv1 (by decide)
    simp [handleRequest, hnapi, hv1, v1Gate, hne]

/-- Witness for C1: a `/v1` chat request with only a wrong Bearer token is
answered 401 without any upstream attempt. -/
theorem bad_key_rejected_no_upstream_witness :
    handleRequest ⟨some "secret", none⟩ (stubOracles "hello") env0
        ⟨.v1ChatCompletions, none, some "Bearer wrong", {model := .str "gpt-4", messages := .arr [⟨"user", "hi"⟩]}⟩ =
      (⟨401, .obj [("error", .obj
        [("message", .str "Invalid API key provided"),
         ("type", .str "invalid_request_error"),
         ("code", .str "invalid_api_key")])]⟩, 0, 0) :=
  (bad_key_rejected_no_upstream ⟨some "secret", none⟩ (stubOracles "hello") env0
    ⟨.v1ChatCompletions, none, some "Bearer wrong", {model := .str "gpt-4", messages := .arr [⟨"user", "hi"⟩]}⟩).2
    rfl (by decide)

/-- C10: the required-field checks are truthiness tests, not presence tests:
any falsy `input` (empty string, `0`, `false`, `null` — exactly as when the
field is absent) is answered 400 `Missing input` on the native routes, and a
falsy `model`, `messages` or `prompt` is answered with the 400
missing-parameter envelope on the `/v1` routes, always with zero upstream
attempts; the native response is literally the one produced when the field
is absent. -/
theorem falsy_field_rejected (cfg : Config) (os : Oracles) (env : Env) (req : Request) :
    (isNativeGenRoute req.route = true → req.xApiKey = cfg.apiKey →
      jsTruthy req.body.input = false →
      handleRequest cfg os env req = (⟨400, .obj [("error", .str "Missing input")]⟩, 0, 0) ∧
      handleRequest cfg os env req =
        handleRequest cfg os env ⟨req.route, req.xApiKey, req.authorization, {req.body with input := .undef}⟩) ∧
    (req.route = .v1ChatCompletions →
      v1SuppliedKey req.xApiKey req.authorization = cfg.apiKey →
      (jsTruthy req.body.model = false ∨ jsTruthy req.body.messages = false) →
      handleRequest cfg os env req = (⟨400, missingParamsError "model and messages"⟩, 0, 0)) ∧
    (req.route = .v1Completions →
      v1SuppliedKey req.xApiKey req.authorization = cfg.apiKey →
      (jsTruthy req.body.model = false ∨ jsTruthy req.body.prompt = false) →
      handleRequest cfg os env req = (⟨400, missingParamsError "model and prompt"⟩, 0, 0)) := by
  obtain ⟨r, x, a, b⟩ := req
  refine ⟨?_, ?_, ?_⟩
  · intro hr hk hin
    simp only at hr hk hin
    cases r <;>
      first
      | exact absurd hr (by decide)
      | (have h2 : jsTruthy JVal.undef = false := rfl
         exact ⟨by simp [handleRequest, isApiPath, apiGate, hk, apiDispatch, handleNative, hin],
                by simp [handleRequest, isApiPath, apiGate, hk, apiDispatch, handleNative, hin, h2]⟩)
  · intro hr hk hor
    simp only at hr hk hor
    subst hr
    have hg : v1Gate cfg.apiKey x a = none := by simp [v1Gate, hk]
    rcases hor with h | h <;>
      simp [handleRequest, isApiPath, isV1Path, hg, v1Dispatch, handleChatCompletions, h]
  · intro hr hk hor
    simp only at hr hk hor
    subst hr
    have hg : v1Gate cfg.apiKey x a = none := by simp [v1Gate, hk]
    rcases hor with h | h <;>
      simp [handleRequest, isApiPath, isV1Path, hg, v1Dispatch, handleCompletions, h]

/-- Witness for C10: an empty-string `input` is rejected exactly like an
absent one. -/
theorem falsy_field_rejected_witness :
    handleRequest ⟨some "k", none⟩ (stubOracles "hello") env0
        ⟨.apiLlama32_1b, some "k", none, {input := .str ""}⟩ =
      (⟨400, .obj [("error", .str "Missing input")]⟩, 0, 0) ∧
    handleRequest ⟨some "k", none⟩ (stubOracles "hello") env0
        ⟨.apiLlama32_1b, some "k", none, {input := .str ""}⟩ =
      handleRequest ⟨some "k", none⟩ (stubOracles "hello") env0
        ⟨.apiLlama32_1b, some "k", none, {input := .undef}⟩ :=
  (falsy_field_rejected ⟨some "k", none⟩ (stubOracles "hello") env0
    ⟨.apiLlama32_1b, some "k", none, {input := .str ""}⟩).1 rfl rfl rfl

/-- Behavior of a native handler past its validation: exactly one attempt,
and failures classified by whether the message mentions `timeout`. -/
theorem handleNative_spec (model : String) (tmo : Nat)
    (oracle : String → String → OllamaOutcome) (input : JVal)
    (hin : jsTruthy input = true) :
    (handleNative model tmo oracle input).2 = 1 ∧
    (oracle model (jsToString input) = .abort →
      (handleNative model tmo oracle input).1.status = 408) ∧
    (∀ m, callOllamaAPI (oracle model (jsToString input)) = .error m →
      (jsIncludes m "timeout" = true → (handleNative model tmo oracle input).1.status = 408) ∧
      (jsIncludes m "timeout" = false →
        (handleNative model tmo oracle input).1.status = 500 ∧
        (handleNative model tmo oracle input).1.body.getF "error" = some (.str m))) := by
  cases hres : callOllamaAPI (oracle model (jsToString input)) with
  | ok t =>
    refine ⟨by simp [handleNative, hin, hres], ?_, ?_⟩
    · intro habort
      have hres' := hres
      rw [habort] at hres'
      simp [callOllamaAPI] at hres'
    · intro m hm
      cases hm
  | error m' =>
    refine ⟨?_, ?_, ?_⟩
    · cases hj : jsIncludes m' "timeout" <;> simp [handleNative, hin, hres, hj]
    · intro habort
      have hres' := hres
      rw [habort] at hres'
      have hmEq : m' = "Request timeout - ollama took too long to respond" := by
        simpa [callOllamaAPI] using hres'.symm
      subst hmEq
      simp [handleNative, hin, hres,
        (by decide : jsIncludes "Request timeout - ollama took too long to respond" "timeout" = true)]
    · intro m hm
      injection hm with h2
      subst h2
      refine ⟨fun hj => by simp [handleNative, hin, hres, hj],
              fun hj => ⟨by simp [handleNative, hin, hres, hj],
                         by simp [handleNative, hin, hres, hj, Json.getF]⟩⟩

/-- Behavior of the chat-completions handler past its validation. -/
theorem handleChatCompletions_spec (os : Oracles) (env : Env) (b : Body)
    (hm : jsTruthy b.model = true) (hmsg : jsTruthy b.messages = true)
    (hs : jsTruthy b.stream = false) :
    (handleChatCompletions os env b).2 = 1 ∧
    (os.ollama (mapModelName (jsToString b.model)) (convertMessagesToPrompt b.messages) = .abort →
      (handleChatCompletions os env b).1.status = 408) ∧
    (∀ m, callOllamaAPI (os.ollama (mapModelName (jsToString b.model)) (convertMessagesToPrompt b.messages)) = .error m →
      (jsIncludes m "timeout" = true → (handleChatCompletions os env b).1.status = 408) ∧
      (jsIncludes m "timeout" = false →
        (handleChatCompletions os env b).1.status = 500 ∧
        ((handleChatCompletions os env b).1.body.getF "error").bind (fun e => e.getF "message") =
          some (.str m))) := by
  cases hres : callOllamaAPI (os.ollama (mapModelName (jsToString b.model)) (convertMessagesToPrompt b.messages)) with
  | ok t =>
    refine ⟨by simp [handleChatCompletions, hm, hmsg, hs, hres], ?_, ?_⟩
    · intro habort
      have hres' := hres
      rw [habort] at hres'
      simp [callOllamaAPI] at hres'
    · intro m hmm
      cases hmm
  | error m' =>
    refine ⟨?_, ?_, ?_⟩
    · cases hj : jsIncludes m' "timeout" <;> simp [handleChatCompletions, hm, hmsg, hs, hres, hj]
    · intro habort
      have hres' := hres
      rw [habort] at hres'
      have hmEq : m' = "Request timeout - ollama took too long to respond" := by
        simpa [callOllamaAPI] using hres'.symm
      subst hmEq
      simp [handleChatCompletions, hm, hmsg, hs, hres,
        (by decide : jsIncludes "Request timeout - ollama took too long to respond" "timeout" = true)]
    · intro m hmm
      injection hmm with h2
      subst h2
      refine ⟨fun hj => by simp [handleChatCompletions, hm, hmsg, hs, hres, hj],
              fun hj => ⟨by simp [handleChatCompletions, hm, hmsg, hs, hres, hj],
                         by simp [handleChatCompletions, hm, hmsg, hs, hres, hj, v1ModelError, Json.getF]⟩⟩

/-- Behavior of the text-completions handler past its validation, for an
actual string prompt (the only shape that reaches the upstream call). -/
theorem handleCompletions_spec (os : Oracles) (env : Env) (b : Body) (p : String)
    (hm : jsTruthy b.model = true) (hp : b.prompt = .str p) (hpne : p ≠ "")
    (hs : jsTruthy b.stream = false) :
    (handleCompletions os env b).2 = 1 ∧
    (os.ollama (mapModelName (jsToString b.model)) p = .abort →
      (handleCompletions os env b).1.status = 408) ∧
    (∀ m, callOllamaAPI (os.ollama (mapModelName (jsToString b.model)) p) = .error m →
      (jsIncludes m "timeout" = true → (handleCompletions os env b).1.status = 408) ∧
      (jsIncludes m "timeout" = false →
        (handleCompletions os env b).1.status = 500 ∧
        ((handleCompletions os env b).1.body.getF "error").bind (fun e => e.getF "message") =
          some (.str m))) := by
  have hpt : jsTruthy (JVal.str p) = true := by
    simp [jsTruthy]
    exact hpne
  cases hres : callOllamaAPI (os.ollama (mapModelName (jsToString b.model)) p) with
  | ok t =>
    refine ⟨by simp [handleCompletions, hm, hpt, hs, hp, hres], ?_, ?_⟩
    · intro habort
      have hres' := hres
      rw [habort] at hres'
      simp [callOllamaAPI] at hres'
    · intro m hmm
      cases hmm
  | error m' =>
    refine ⟨?_, ?_, ?_⟩
    · cases hj : jsIncludes m' "timeout" <;> simp [handleCompletions, hm, hpt, hs, hp, hres, hj]
    · intro habort
      have hres' := hres
      rw [habort] at hres'
      have hmEq : m' = "Request timeout - ollama took too long to respond" := by
        simpa [callOllamaAPI] using hres'.symm
      subst hmEq
      simp [handleCompletions, hm, hpt, hs, hp, hres,
        (by decide : jsIncludes "Request timeout - ollama took too long to respond" "timeout" = true)]
    · intro m hmm
      injection hmm with h2
      subst h2
      refine ⟨fun hj => by simp [handleCompletions, hm, hpt, hs, hp, hres, hj],
              fun hj => ⟨by simp [handleCompletions, hm, hpt, hs, hp, hres, hj],
                         by simp [handleCompletions, hm, hpt, hs, hp, hres, hj, v1ModelError, Json.getF]⟩⟩

/-- C7 counterexample: a `/v1/chat/completions` body with `stream: true` but
no `model`/`messages` is answered with the missing-parameter error, not the
unsupported-parameter error the claim promises for every `stream: true`
body — the required-parameter check runs first. -/
theorem stream_true_without_params_counterexample :
    (handleRequest ⟨some "k", none⟩ (stubOracles "hello") env0
        ⟨.v1ChatCompletions, some "k", none, {stream := .bool true}⟩).1.status = 400 ∧
    (((handleRequest ⟨some "k", none⟩ (stubOracles "hello") env0
        ⟨.v1ChatCompletions, some "k", none, {stream := .bool true}⟩).1.body.getF "error").bind
      (fun e => e.getF "code")) = some (.str "missing_required_parameter") ∧
    (Json.str "missing_required_parameter" ≠ Json.str "unsupported_parameter") := by
  refine ⟨rfl, rfl, ?_⟩
  intro h
  injection h with h2
  exact absurd h2 (by decide)

/-- C7 amended: on the two `/v1` generation routes a body with `stream: true`
that also supplies its required truthy parameters is answered 400 with the
unsupported-parameter envelope and no upstream attempt; when the required
parameters are missing, the handler instead answers the 400
missing-parameter validation error (the check that runs first), still with
no upstream attempt. -/
theorem stream_true_rejected (cfg : Config) (os : Oracles) (env : Env) (req : Request)
    (hroute : req.route = .v1ChatCompletions ∨ req.route = .v1Completions)
    (hk : v1SuppliedKey req.xApiKey req.authorization = cfg.apiKey)
    (hs : req.body.stream = .bool true) :
    (requiredParamsOk req.route req.body = true →
      handleRequest cfg os env req = (⟨400, streamError⟩, 0, 0)) ∧
    (requiredParamsOk req.route req.body = false →
      (handleRequest cfg os env req).1.status = 400 ∧
      (handleRequest cfg os env req).2 = (0, 0)) := by
  obtain ⟨r, x, a, b⟩ := req
  simp only at hk hs
  have hg : v1Gate cfg.apiKey x a = none := by simp [v1Gate, hk]
  rcases hroute with h | h <;> simp only at h <;> subst h
  · constructor
    · intro hreq
      simp only [requiredParamsOk, Bool.and_eq_true] at hreq
      obtain ⟨hm1, hm2⟩ := hreq
      simp [handleRequest, isApiPath, isV1Path, hg, v1Dispatch, handleChatCompletions,
            hm1, hm2, hs]
      exact ⟨rfl, rfl⟩
    · intro hreq
      simp only [requiredParamsOk, Bool.and_eq_false_iff] at hreq
      rcases hreq with h | h <;>
        simp [handleRequest, isApiPath, isV1Path, hg, v1Dispatch, handleChatCompletions, h]
  · constructor
    · intro hreq
      simp only [requiredParamsOk, Bool.and_eq_true] at hreq
      obtain ⟨hm1, hm2⟩ := hreq
      simp [handleRequest, isApiPath, isV1Path, hg, v1Dispatch, handleCompletions,
            hm1, hm2, hs]
      exact ⟨rfl, rfl⟩
    · intro hreq
      simp only [requiredParamsOk, Bool.and_eq_false_iff] at hreq
      rcases hreq with h | h <;>
        simp [handleRequest, isApiPath, isV1Path, hg, v1Dispatch, handleCompletions, h]

/-- Witness for amended C7: a well-formed chat body with `stream: true` is
answered with the unsupported-parameter envelope and no upstream attempt. -/
theorem stream_true_rejected_witness :
    handleRequest ⟨some "k", none⟩ (stubOracles "hello") env0
        ⟨.v1ChatCompletions, some "k", none,
         {model := .str "gpt-4", messages := .arr [⟨"user", "hi"⟩], stream := .bool true}⟩ =
      (⟨400, streamError⟩, 0, 0) :=
  (stream_true_rejected ⟨some "k", none⟩ (stubOracles "hello") env0
    ⟨.v1ChatCompletions, some "k", none,
     {model := .str "gpt-4", messages := .arr [⟨"user", "hi"⟩], stream := .bool true}⟩
    (Or.inl rfl) rfl rfl).1 rfl

/-- Helper: a nonempty string is truthy. -/
theorem jsTruthy_str_of_ne (s : String) (h : s ≠ "") : jsTruthy (.str s) = true := by
  simp [jsTruthy]
  exact h

/-- C3: when the single upstream attempt succeeds with text `T` for the
derived prompt, a native route answers 200 `{result: T}`, and the chat route
answers an envelope whose `choices[0].message.content` is `T`, whose `model`
echoes the requested alias, and whose `usage` counters are the ceil-div-4
heuristics over the derived prompt and `T`. -/
theorem success_response_shape (cfg : Config) (os : Oracles) (env : Env) (req : Request)
    (T : String) :
    (isNativeGenRoute req.route = true → req.xApiKey = cfg.apiKey →
      ∀ p : String, req.body.input = .str p → p ≠ "" →
      os.ollama (nativeModelOf req.route) p = .success T →
      handleRequest cfg os env req = (⟨200, .obj [("result", .str T)]⟩, 1, 0)) ∧
    (req.route = .v1ChatCompletions →
      v1SuppliedKey req.xApiKey req.authorization = cfg.apiKey →
      ∀ (al : String) (msgs : List ChatMessage),
      req.body.model = .str al → al ≠ "" →
      req.body.messages = .arr msgs → req.body.stream = .undef →
      os.ollama (mapModelName al) (convertMessagesToPrompt (.arr msgs)) = .success T →
      (handleRequest cfg os env req).1.status = 200 ∧
      chatContent (handleRequest cfg os env req).1.body = some (.str T) ∧
      (handleRequest cfg os env req).1.body.getF "model" = some (.str al) ∧
      (handleRequest cfg os env req).1.body.getF "usage" =
        some (.obj
          [("prompt_tokens", .num (jsCeilDiv4 (convertMessagesToPrompt (.arr msgs)).length)),
           ("completion_tokens", .num (jsCeilDiv4 T.length)),
           ("total_tokens", .num (jsCeilDiv4 ((convertMessagesToPrompt (.arr msgs)).length + T.length)))])) := by
  obtain ⟨r, x, a, b⟩ := req
  constructor
  · intro hr hk p hp hpne hsucc
    simp only at hr hk hp hsucc
    have htr : jsTruthy (JVal.str p) = true := jsTruthy_str_of_ne p hpne
    cases r <;>
      first
      | exact absurd hr (by decide)
      | (simp only [nativeModelOf] at hsucc
         simp [handleRequest, isApiPath, apiGate, hk, apiDispatch, handleNative, hp, htr,
               jsToString, hsucc, callOllamaAPI])
  · intro hr hk al msgs hmodel hne hmsgs hstream hsucc
    simp only at hr hk hmodel hmsgs hstream hsucc
    subst hr
    have hg : v1Gate cfg.apiKey x a = none := by simp [v1Gate, hk]
    have hm1 : jsTruthy b.model = true := by
      rw [hmodel]; exact jsTruthy_str_of_ne al hne
    have hm2 : jsTruthy b.messages = true := by rw [hmsgs]; rfl
    have hm3 : jsTruthy b.stream = false := by rw [hstream]; rfl
    have hcall : callOllamaAPI (os.ollama (mapModelName (jsToString b.model)) (convertMessagesToPrompt b.messages)) = .ok T := by
      rw [hmodel, hmsgs]; simp [jsToString, hsucc, callOllamaAPI]
    have hred : handleRequest cfg os env ⟨.v1ChatCompletions, x, a, b⟩ =
        (⟨200, chatEnvelope b.model (mapModelName (jsToString b.model))
          (convertMessagesToPrompt b.messages) T env⟩, 1, 0) := by
      simp [handleRequest, isApiPath, isV1Path, hg, v1Dispatch, handleChatCompletions,
            hm1, hm2, hm3, hcall]
    refine ⟨by rw [hred], by rw [hred]; rfl, ?_, ?_⟩
    · rw [hred, hmodel]; rfl
    · rw [hred, hmsgs]; rfl

/-- Witness for C3: the chat route with alias `gpt-3.5-turbo`, one user
message `hi`, and a stub upstream returning `hello`. -/
theorem success_response_shape_witness :
    (handleRequest ⟨some "k", none⟩ (stubOracles "hello") env0
        ⟨.v1ChatCompletions, some "k", none,
         {model := .str "gpt-3.5-turbo", messages := .arr [⟨"user", "hi"⟩]}⟩).1.status = 200 ∧
    chatContent (handleRequest ⟨some "k", none⟩ (stubOracles "hello") env0
        ⟨.v1ChatCompletions, some "k", none,
         {model := .str "gpt-3.5-turbo", messages := .arr [⟨"user", "hi"⟩]}⟩).1.body =
      some (.str "hello") ∧
    (handleRequest ⟨some "k", none⟩ (stubOracles "hello") env0
        ⟨.v1ChatCompletions, some "k", none,
         {model := .str "gpt-3.5-turbo", messages := .arr [⟨"user", "hi"⟩]}⟩).1.body.getF "model" =
      some (.str "gpt-3.5-turbo") ∧
    (handleRequest ⟨some "k", none⟩ (stubOracles "hello") env0
        ⟨.v1ChatCompletions, some "k", none,
         {model := .str "gpt-3.5-turbo", messages := .arr [⟨"user", "hi"⟩]}⟩).1.body.getF "usage" =
      some (.obj
        [("prompt_tokens", .num (jsCeilDiv4 (convertMessagesToPrompt (.arr [⟨"user", "hi"⟩])).length)),
         ("completion_tokens", .num (jsCeilDiv4 ("hello" : String).length)),
         ("total_tokens", .num (jsCeilDiv4 ((convertMessagesToPrompt (.arr [⟨"user", "hi"⟩])).length + ("hello" : String).length)))]) :=
  (success_response_shape ⟨some "k", none⟩ (stubOracles "hello") env0
    ⟨.v1ChatCompletions, some "k", none,
     {model := .str "gpt-3.5-turbo", messages := .arr [⟨"user", "hi"⟩]}⟩ "hello").2
    rfl rfl "gpt-3.5-turbo" [⟨"user", "hi"⟩] rfl (by decide) rfl rfl rfl

/-- C4 counterexample: an upstream HTTP 502 whose error body mentions the
word timeout is answered 408, not the 500 the claim assigns to every
non-timeout upstream error — the handler classifies by message text. -/
theorem upstream_error_word_timeout_counterexample :
    (handleRequest ⟨some "k", none⟩ timeoutWordOracles env0
        ⟨.apiLlama32_1b, some "k", none, {input := .str "hi"}⟩).1.status = 408 ∧
    (handleRequest ⟨some "k", none⟩ timeoutWordOracles env0
        ⟨.apiLlama32_1b, some "k", none, {input := .str "hi"}⟩).1.status ≠ 500 ∧
    timeoutWordOracles.ollama "llama3.2:1b" "hi" = .httpError 502 "upstream read timeout" :=
  ⟨rfl, by decide, rfl⟩

/-- Helper: a truthy string value is truthy. -/
theorem jsTruthy_of_isTruthyStr (v : JVal) (h : isTruthyStr v = true) : jsTruthy v = true := by
  cases v <;> simp_all [isTruthyStr, jsTruthy]

/-- Helper: a truthy string value is a nonempty string. -/
theorem isTruthyStr_exists (v : JVal) (h : isTruthyStr v = true) :
    ∃ p : String, v = .str p ∧ p ≠ "" := by
  cases v
  case str s => exact ⟨s, rfl, by simpa [isTruthyStr] using h⟩
  all_goals simp [isTruthyStr] at h

/-- C4 amended: a generation request whose required text field is an actual
(truthy) string makes exactly one upstream attempt (no retries, whatever the
outcome); an elapsed budget (abort) is answered 408; any other failure is
classified by its message text — containing `timeout` yields 408, otherwise
500 with the message embedded in the route's error shape.  A truthy
non-string field never reaches the upstream call: on `/v1/completions` the
TypeError thrown at the pre-call log line inside the try is caught and
answered 500 with zero attempts. -/
theorem one_attempt_and_message_classified (cfg : Config) (os : Oracles) (env : Env)
    (req : Request) (hgen : isGenRoute req.route = true) (hgate : gateOk cfg req = true) :
    (validGenBody req.route req.body = true →
      (handleRequest cfg os env req).2.1 = 1 ∧
      (os.ollama (genModel req.route req.body) (genPrompt req.route req.body) = .abort →
        (handleRequest cfg os env req).1.status = 408) ∧
      (∀ m, callOllamaAPI (os.ollama (genModel req.route req.body) (genPrompt req.route req.body)) = .error m →
        (jsIncludes m "timeout" = true → (handleRequest cfg os env req).1.status = 408) ∧
        (jsIncludes m "timeout" = false →
          (handleRequest cfg os env req).1.status = 500 ∧
          errMessageOf req.route (handleRequest cfg os env req).1.body = some (.str m)))) ∧
    (req.route = .v1Completions → jsTruthy req.body.model = true →
      jsTruthy req.body.prompt = true → isTruthyStr req.body.prompt = false →
      jsTruthy req.body.stream = false →
      handleRequest cfg os env req =
        (⟨500, v1ModelError "prompt.substring is not a function"⟩, 0, 0)) := by
  obtain ⟨r, x, a, b⟩ := req
  simp only at hgen hgate
  constructor
  · intro hvalid
    simp only at hvalid
    cases r
    case apiLlama32_1b =>
      have hk : x = cfg.apiKey := by
        have h := hgate
        simp [gateOk, isApiPath] at h
        exact h
      have hin : jsTruthy b.input = true := jsTruthy_of_isTruthyStr b.input hvalid
      rcases hhn : handleNative "llama3.2:1b" 180000 os.ollama b.input with ⟨resp, n⟩
      have hspec := handleNative_spec "llama3.2:1b" 180000 os.ollama b.input hin
      rw [hhn] at hspec
      have hred : handleRequest cfg os env ⟨.apiLlama32_1b, x, a, b⟩ = (resp, n, 0) := by
        simp [handleRequest, isApiPath, apiGate, hk, apiDispatch, hhn]
      rw [hred]
      exact hspec
    case apiLlama32_3b =>
      have hk : x = cfg.apiKey := by
        have h := hgate
        simp [gateOk, isApiPath] at h
        exact h
      have hin : jsTruthy b.input = true := jsTruthy_of_isTruthyStr b.input hvalid
      rcases hhn : handleNative "llama3.2:3b" 120000 os.ollama b.input with ⟨resp, n⟩
      have hspec := handleNative_spec "llama3.2:3b" 120000 os.ollama b.input hin
      rw [hhn] at hspec
      have hred : handleRequest cfg os env ⟨.apiLlama32_3b, x, a, b⟩ = (resp, n, 0) := by
        simp [handleRequest, isApiPath, apiGate, hk, apiDispatch, hhn]
      rw [hred]
      exact hspec
    case apiGemma3_4b =>
      have hk : x = cfg.apiKey := by
        have h := hgate
        simp [gateOk, isApiPath] at h
        exact h
      have hin : jsTruthy b.input = true := jsTruthy_of_isTruthyStr b.input hvalid
      rcases hhn : handleNative "gemma3:4b" 150000 os.ollama b.input with ⟨resp, n⟩
      have hspec := handleNative_spec "gemma3:4b" 150000 os.ollama b.input hin
      rw [hhn] at hspec
      have hred : handleRequest cfg os env ⟨.apiGemma3_4b, x, a, b⟩ = (resp, n, 0) := by
        simp [handleRequest, isApiPath, apiGate, hk, apiDispatch, hhn]
      rw [hred]
      exact hspec
    case apiPhi3Mini =>
      have hk : x = cfg.apiKey := by
        have h := hgate
        simp [gateOk, isApiPath] at h
        exact h
      have hin : jsTruthy b.input = true := jsTruthy_of_isTruthyStr b.input hvalid
      rcases hhn : handleNative "phi3:mini" 120000 os.ollama b.input with ⟨resp, n⟩
      have hspec := handleNative_spec "phi3:mini" 120000 os.ollama b.input hin
      rw [hhn] at hspec
      have hred : handleRequest cfg os env ⟨.apiPhi3Mini, x, a, b⟩ = (resp, n, 0) := by
        simp [handleRequest, isApiPath, apiGate, hk, apiDispatch, hhn]
      rw [hred]
      exact hspec
    case v1ChatCompletions =>
      have hk : v1SuppliedKey x a = cfg.apiKey := by
        have h := hgate
        simp [gateOk, isApiPath] at h
        exact h
      have hv := hvalid
      simp only [validGenBody, Bool.and_eq_true, Bool.not_eq_true'] at hv
      obtain ⟨⟨hm1, hm2⟩, hm3⟩ := hv
      rcases hhn : handleChatCompletions os env b with ⟨resp, n⟩
      have hspec := handleChatCompletions_spec os env b hm1 hm2 hm3
      rw [hhn] at hspec
      have hg : v1Gate cfg.apiKey x a = none := by simp [v1Gate, hk]
      have hred : handleRequest cfg os env ⟨.v1ChatCompletions, x, a, b⟩ = (resp, n, 0) := by
        simp [handleRequest, isApiPath, isV1Path, hg, v1Dispatch, hhn]
      rw [hred]
      exact hspec
    case v1Completions =>
      have hk : v1SuppliedKey x a = cfg.apiKey := by
        have h := hgate
        simp [gateOk, isApiPath] at h
        exact h
      have hv := hvalid
      simp only [validGenBody, Bool.and_eq_true, Bool.not_eq_true'] at hv
      obtain ⟨⟨hm1, hstr⟩, hm3⟩ := hv
      obtain ⟨p, hp, hpne⟩ := isTruthyStr_exists b.prompt hstr
      rcases hhn : handleCompletions os env b with ⟨resp, n⟩
      have hspec := handleCompletions_spec os env b p hm1 hp hpne hm3
      rw [hhn] at hspec
      have hg : v1Gate cfg.apiKey x a = none := by simp [v1Gate, hk]
      have hred : handleRequest cfg os env ⟨.v1Completions, x, a, b⟩ = (resp, n, 0) := by
        simp [handleRequest, isApiPath, isV1Path, hg, v1Dispatch, hhn]
      rw [hred]
      simp only [genModel, genPrompt, hp]
      exact hspec
    all_goals exact absurd hgen (by decide)
  · intro hr hm1 htp hnstr hm3
    simp only at hr hm1 htp hnstr hm3
    subst hr
    have hk : v1SuppliedKey x a = cfg.apiKey := by
      have h := hgate
      simp [gateOk, isApiPath] at h
      exact h
    have hg : v1Gate cfg.apiKey x a = none := by simp [v1Gate, hk]
    have hcomp : handleCompletions os env b =
        (⟨500, v1ModelError "prompt.substring is not a function"⟩, 0) := by
      cases hb : b.prompt
      case undef =>
        rw [hb] at htp
        simp [jsTruthy] at htp
      case jnull =>
        rw [hb] at htp
        simp [jsTruthy] at htp
      case str s =>
        rw [hb] at htp hnstr
        simp [jsTruthy] at htp
        simp [isTruthyStr] at hnstr
        exact absurd hnstr htp
      case num n =>
        rw [hb] at htp
        simp [handleCompletions, hm1, hm3, hb, htp]
      case bool v =>
        rw [hb] at htp
        simp [handleCompletions, hm1, hm3, hb, htp]
      case arr ms =>
        rw [hb] at htp
        simp [handleCompletions, hm1, hm3, hb, htp]
    simp [handleRequest, isApiPath, isV1Path, hg, v1Dispatch, hcomp]

/-- Witness for amended C4: a native request whose attempt is aborted by the
budget makes exactly one attempt and is answered 408. -/
theorem one_attempt_and_message_classified_witness :
    (handleRequest ⟨some "k", none⟩ abortOracles env0
        ⟨.apiLlama32_1b, some "k", none, {input := .str "hi"}⟩).2.1 = 1 ∧
    (handleRequest ⟨some "k", none⟩ abortOracles env0
        ⟨.apiLlama32_1b, some "k", none, {input := .str "hi"}⟩).1.status = 408 :=
  ⟨((one_attempt_and_message_classified ⟨some "k", none⟩ abortOracles env0
      ⟨.apiLlama32_1b, some "k", none, {input := .str "hi"}⟩ rfl rfl).1 rfl).1,
   ((one_attempt_and_message_classified ⟨some "k", none⟩ abortOracles env0
      ⟨.apiLlama32_1b, some "k", none, {input := .str "hi"}⟩ rfl rfl).1 rfl).2.1 rfl⟩

/-- Character data of a string concatenation. -/
theorem strData_append (a b : String) : (a ++ b).data = a.data ++ b.data := rfl

/-- Appending the empty string is the identity. -/
theorem strAppend_empty (s : String) : s ++ "" = s := by
  cases s with
  | mk l => exact congrArg String.mk (List.append_nil l)

/-- String concatenation is associative. -/
theorem strAppend_assoc (a b c : String) : (a ++ b) ++ c = a ++ (b ++ c) := by
  cases a with
  | mk la =>
    cases b with
    | mk lb =>
      cases c with
      | mk lc => exact congrArg String.mk (List.append_assoc la lb lc)

/-- Folding string concatenation from an arbitrary accumulator. -/
theorem foldl_append_str (l : List String) (s : String) :
    l.foldl (fun r t => r ++ t) s = s ++ l.foldl (fun r t => r ++ t) "" := by
  induction l generalizing s with
  | nil => exact (strAppend_empty s).symm
  | cons a l ih =>
    rw [List.foldl_cons, List.foldl_cons, ih (s ++ a), ih ("" ++ a)]
    rw [strAppend_assoc]
    rfl

/-- `String.join` distributes over `cons`. -/
theorem join_cons (s : String) (l : List String) : String.join (s :: l) = s ++ String.join l := by
  simp only [String.join, List.foldl_cons]
  rw [foldl_append_str l ("" ++ s)]
  rfl

/-- The flattening is the ordered join of the per-message renderings,
terminated by the open assistant cue. -/
theorem convert_eq_join (ms : List ChatMessage) :
    convertMessagesToPrompt (.arr ms) = String.join (ms.map renderMessage) ++ "Assistant: " := by
  simp only [convertMessagesToPrompt, String.join, List.foldl_map]

/-- Rendering of a recognized message, split into tag, content, and
separator at the character level. -/
theorem renderMessage_data (m : ChatMessage)
    (hrole : m.role = "system" ∨ m.role = "user" ∨ m.role = "assistant") :
    (renderMessage m).data = ((roleTag m.role).data ++ m.content.data) ++ ['\n', '\n'] := by
  obtain ⟨r, c⟩ := m
  simp only at hrole
  rcases hrole with h | h | h <;> subst h <;> rfl

/-- Splitting a separator-free prefix followed by the separator peels off
exactly that prefix. -/
theorem splitSegs_append (content rest : List Char) (h : '\n' ∉ content) :
    splitSegs (content ++ '\n' :: '\n' :: rest) = content :: splitSegs rest := by
  induction content with
  | nil => rfl
  | cons c cs ih =>
    have hc : c ≠ '\n' := fun hcc => h (by rw [← hcc] at *; exact List.mem_cons_self c cs)
    have hcs : '\n' ∉ cs := fun hm => h (List.mem_cons_of_mem c hm)
    cases cs with
    | nil =>
      simp only [List.nil_append, List.cons_append]
      simp [splitSegs, consHead, hc]
    | cons e cs' =>
      have hih := ih hcs
      simp only [List.cons_append] at hih ⊢
      simp [splitSegs, consHead, hc, hih]

/-- Splitting the whole transcript of well-formed messages yields one tagged
segment per message, in order, plus the trailing open cue. -/
theorem splitSegs_transcript (ms : List ChatMessage) (h : ∀ m ∈ ms, wfMessage m) :
    splitSegs (String.join (ms.map renderMessage) ++ "Assistant: ").data =
      ms.map (fun m => (roleTag m.role).data ++ m.content.data) ++ ["Assistant: ".data] := by
  induction ms with
  | nil => rfl
  | cons m ms' ih =>
    have hm := h m (List.mem_cons_self m ms')
    have hrest : ∀ x ∈ ms', wfMessage x := fun x hx => h x (List.mem_cons_of_mem m hx)
    obtain ⟨hrole, hnl⟩ := hm
    have hno : '\n' ∉ (roleTag m.role).data ++ m.content.data := by
      intro hmem
      rcases List.mem_append.mp hmem with hmem | hmem
      · rcases hrole with h1 | h1 | h1 <;>
          (rw [h1] at hmem; exact absurd hmem (by decide))
      · exact hnl hmem
    rw [List.map_cons, join_cons, strAppend_assoc, strData_append, renderMessage_data m hrole,
        List.append_assoc]
    simp only [List.cons_append, List.nil_append]
    rw [splitSegs_append _ _ hno, ih hrest]
    simp [List.map_cons]

/-- A rendered segment of a recognized message parses back to the message. -/
theorem parseSeg_render (m : ChatMessage)
    (hrole : m.role = "system" ∨ m.role = "user" ∨ m.role = "assistant") :
    parseSeg ((roleTag m.role).data ++ m.content.data) = some m := by
  obtain ⟨r, c⟩ := m
  simp only at hrole
  rcases hrole with h | h | h <;> subst h <;> rfl

/-- Parsing the segment list of well-formed messages recovers them all, in
order. -/
theorem filterMap_parseSeg (ms : List ChatMessage) (h : ∀ m ∈ ms, wfMessage m) :
    (ms.map (fun m => (roleTag m.role).data ++ m.content.data)).filterMap parseSeg = ms := by
  induction ms with
  | nil => rfl
  | cons m ms' ih =>
    have hm := (h m (List.mem_cons_self m ms')).1
    have hrest : ∀ x ∈ ms', wfMessage x := fun x hx => h x (List.mem_cons_of_mem m hx)
    simp only [List.map_cons, List.filterMap_cons, parseSeg_render m hm]
    rw [ih hrest]

/-- C6: `convertMessagesToPrompt` is order-preserving — the transcript is the
join, in input order, of the per-message role-tagged renderings followed by
the open assistant cue — and, for message sequences the transcript encodes
unambiguously (recognized roles, newline-free contents), re-parsing the
transcript recovers the same role sequence, so flattening again yields the
same transcript text. -/
theorem convertMessagesToPrompt_order_and_roundtrip (ms : List ChatMessage) :
    convertMessagesToPrompt (.arr ms) = String.join (ms.map renderMessage) ++ "Assistant: " ∧
    ((∀ m ∈ ms, wfMessage m) →
      parseTranscript (convertMessagesToPrompt (.arr ms)) = ms ∧
      convertMessagesToPrompt (.arr (parseTranscript (convertMessagesToPrompt (.arr ms)))) =
        convertMessagesToPrompt (.arr ms)) := by
  refine ⟨convert_eq_join ms, fun h => ?_⟩
  have hparse : parseTranscript (convertMessagesToPrompt (.arr ms)) = ms := by
    rw [convert_eq_join]
    unfold parseTranscript
    rw [splitSegs_transcript ms h, List.dropLast_concat]
    exact filterMap_parseSeg ms h
  exact ⟨hparse, by rw [hparse]⟩

/-- Witness for C6 at a one-message chat. -/
theorem convertMessagesToPrompt_order_and_roundtrip_witness :
    parseTranscript (convertMessagesToPrompt (.arr [⟨"user", "hi"⟩])) = [⟨"user", "hi"⟩] ∧
    convertMessagesToPrompt (.arr (parseTranscript (convertMessagesToPrompt (.arr [⟨"user", "hi"⟩])))) =
      convertMessagesToPrompt (.arr [⟨"user", "hi"⟩]) :=
  (convertMessagesToPrompt_order_and_roundtrip [⟨"user", "hi"⟩]).2 (by decide)

end Mileva
